import Mathlib

/-!
Shallow embedding of the negotiation engine of the Dehack repository
(Backend/nivasSaarthi/app: telegram_service.py, whatsapp_negotiator.py,
tasks.py, views.py, models.py), together with theorems settling the
frozen claims about its specification.

Numbers: the source stores prices as Python float (telegram_service) or
decimal.Decimal (whatsapp_negotiator, tasks, models).  All prices that
occur are decimal literals, so we embed them as exact decimal fractions:
an integer numerator over a power-of-ten denominator, compared by
cross multiplication.
-/

namespace Dehack

/-- Exact decimal number: value is num / den, with den a positive power of ten
by construction.  Stands in for Python float / Decimal values of prices. -/
structure Price where
  num : Int
  den : Nat := 1
deriving Repr, DecidableEq

/-- Value-level comparison a ≤ b by cross multiplication. -/
def Price.le (a b : Price) : Bool := a.num * (b.den : Int) ≤ b.num * (a.den : Int)

/-- Value-level comparison a < b by cross multiplication. -/
def Price.lt (a b : Price) : Bool := a.num * (b.den : Int) < b.num * (a.den : Int)

/-- Value-level equality by cross multiplication. -/
def Price.eqv (a b : Price) : Bool := a.num * (b.den : Int) = b.num * (a.den : Int)

/-- Multiplication by the exact decimal fraction p / q
(used for Decimal 0.7 times budget in tasks.py). -/
def Price.mulFrac (a : Price) (p q : Nat) : Price := ⟨a.num * (p : Int), a.den * q⟩

/-- Python truthiness of a float / Decimal: only 0 is falsy. -/
def Price.truthy (a : Price) : Bool := a.num ≠ 0

instance : OfNat Price n := ⟨⟨(n : Int), 1⟩⟩

/-- NegotiationSession.status choices (models.py NEGOTIATION_STATUS). -/
inductive SessionStatus
  | active
  | completed
  | failed
  | expired
deriving Repr, DecidableEq

/-- NegotiationSession.outcome choices (models.py OUTCOME_CHOICES). -/
inductive Outcome
  | agreed
  | no_deal
  | timeout
  | cancelled
deriving Repr, DecidableEq

/-- ServiceRequest.status choices (models.py STATUS_CHOICES). -/
inductive ReqStatus
  | PENDING
  | NEGOTIATING
  | OFFERS_READY
  | ACCEPTED
  | CANCELLED
  | EXPIRED
deriving Repr, DecidableEq

/-- One entry of NegotiationSession.conversation_history.  The source stores
role plus message text (plus a price or timestamp field that no claim
mentions, omitted here). -/
structure HistEntry where
  role : String
  message : String
deriving Repr, DecidableEq

/-- models.py NegotiationSession, restricted to the fields the negotiation
logic reads or writes.  Timestamps are abstract Nat instants. -/
structure NegotiationSession where
  id : Nat := 0
  provider_phone : String
  max_price : Price
  min_acceptable : Price
  current_offer : Option Price := none
  counter_offer : Option Price := none
  status : SessionStatus := .active
  outcome : Option Outcome := none
  message_count : Nat := 0
  conversation_history : List HistEntry := []
  expires_at : Nat
deriving Repr, DecidableEq

/-- models.py NegotiationSession.is_expired: timezone.now() > expires_at. -/
def NegotiationSession.is_expired (s : NegotiationSession) (now : Nat) : Bool :=
  s.expires_at < now

/-- models.py NegotiationSession.add_message: append to history and
increment message_count. -/
def NegotiationSession.add_message (s : NegotiationSession) (role text : String) :
    NegotiationSession :=
  { s with conversation_history := s.conversation_history ++ [{ role := role, message := text }],
           message_count := s.message_count + 1 }

/-! ## Price extraction, Telegram variant (telegram_service.py extract_price)

The source lowercases the text, strips commas, then tries five regex
patterns in order and returns the group of the first match:
1. a number after a rupee sign, 2. a number after rs with optional dot,
3. a number followed by rupee words or rs, 4. the whole text is a number,
5. any number anywhere.  Each is embedded as a leftmost scan; the greedy
matching of the digit groups needs no backtracking because every
continuation after the group starts with a non-digit, non-dot character. -/

def isDigit (c : Char) : Bool := 48 ≤ c.toNat && c.toNat ≤ 57

def isSpace (c : Char) : Bool :=
  c = ' ' || c = '\t' || c = '\n' || c = '\r' || c = '\x0b' || c = '\x0c'

def digitVal (c : Char) : Nat := c.toNat - '0'.toNat

def natOfDigits (l : List Char) : Nat := l.foldl (fun a c => a * 10 + digitVal c) 0

def skipSpaces (l : List Char) : List Char := l.dropWhile isSpace

def startsWith : List Char → List Char → Bool
  | [], _ => true
  | _ :: _, [] => false
  | p :: ps, c :: cs => p = c && startsWith ps cs

/-- Parse a decimal numeral at the head of the list:
one or more digits, optionally a dot followed by one or more digits.
Returns the parsed value and the remaining characters. -/
def numAt (l : List Char) : Option (Price × List Char) :=
  let d1 := l.takeWhile isDigit
  let r1 := l.dropWhile isDigit
  if d1 = [] then none
  else
    match r1 with
    | '.' :: r2 =>
      let d2 := r2.takeWhile isDigit
      if d2 = [] then some (⟨(natOfDigits d1 : Int), 1⟩, r1)
      else some (⟨(natOfDigits d1 * 10 ^ d2.length + natOfDigits d2 : Int), 10 ^ d2.length⟩,
                 r2.dropWhile isDigit)
    | _ => some (⟨(natOfDigits d1 : Int), 1⟩, r1)

/-- Leftmost search: try the position matcher at every suffix, left to right. -/
def scanPos {α : Type} (f : List Char → Option α) : List Char → Option α
  | [] => none
  | c :: rest =>
    match f (c :: rest) with
    | some p => some p
    | none => scanPos f rest

/-- telegram_service.py: the search text is text.lower() with commas removed. -/
def tgSearchText (s : String) : List Char :=
  (s.toList.map Char.toLower).filter (fun c => c ≠ ',')

/-- Pattern 1 at a position: rupee sign, optional spaces, then a number. -/
def tg_pat1_at : List Char → Option Price
  | '₹' :: rest => (numAt (skipSpaces rest)).map (·.1)
  | _ => none

/-- Pattern 2 at a position: the letters r s, an optional dot, optional
spaces, then a number.  With a dot present the dotless alternative of the
regex cannot match, so only one branch is tried. -/
def tg_pat2_at : List Char → Option Price
  | 'r' :: 's' :: rest =>
    match rest with
    | '.' :: r2 => (numAt (skipSpaces r2)).map (·.1)
    | _ => (numAt (skipSpaces rest)).map (·.1)
  | _ => none

/-- Pattern 3 at a position: a number, optional spaces, then one of the
alternatives rupees, rupee, rs; a prefix check on rupee covers rupees. -/
def tg_pat3_at (l : List Char) : Option Price :=
  match numAt l with
  | some (p, rest) =>
    let r := skipSpaces rest
    if startsWith "rupee".toList r || startsWith "rs".toList r then some p else none
  | none => none

/-- Pattern 4: the whole text is exactly a number (anchored both ends). -/
def tg_pat4 (l : List Char) : Option Price :=
  match numAt l with
  | some (p, rest) => if rest = [] then some p else none
  | none => none

/-- Pattern 5 at a position: any number. -/
def tg_pat5_at (l : List Char) : Option Price := (numAt l).map (·.1)

/-- telegram_service.py TelegramNegotiationBot.extract_price. -/
def extract_price (text : String) : Option Price :=
  let t := tgSearchText text
  scanPos tg_pat1_at t <|> scanPos tg_pat2_at t <|> scanPos tg_pat3_at t <|>
    tg_pat4 t <|> scanPos tg_pat5_at t

/-- The replies handle_negotiation_message can send back to the provider.
The text of the too-high reply comes from an external AI call with a
deterministic fallback; only which branch was taken matters here. -/
inductive TgReply
  | autoAccept (p : Price)
  | optionsTooHigh (p : Price)
  | optionsInRange (p : Price)
  | askPrice
deriving Repr, DecidableEq

/-- telegram_service.py TelegramNegotiationBot.handle_negotiation_message,
acting on the active session the chat id resolved to.  Note the source
consults no clock here: there is no expiry check in this handler.  The
Python test if price is false both for None and for a parsed 0. -/
def handle_negotiation_message (s : NegotiationSession) (text : String) :
    NegotiationSession × TgReply :=
  match extract_price text with
  | some p =>
    if p.truthy then
      let s1 := { s with current_offer := some p,
                         message_count := s.message_count + 1,
                         conversation_history :=
                           s.conversation_history ++ [{ role := "provider", message := text }] }
      if p.le s1.min_acceptable then
        ({ s1 with status := .completed, outcome := some .agreed }, .autoAccept p)
      else if s1.max_price.lt p then
        (s1, .optionsTooHigh p)
      else
        (s1, .optionsInRange p)
    else (s, .askPrice)
  | none => (s, .askPrice)

/-- telegram_service.py TelegramNegotiationBot.handle_accept, acting on the
session the callback resolved to (looked up by id and chat id only; the
source does not filter on status or compare the offer with the budget). -/
def handle_accept (s : NegotiationSession) : NegotiationSession :=
  { s with status := .completed, outcome := some .agreed }

/-- telegram_service.py TelegramNegotiationBot.handle_reject. -/
def handle_reject (s : NegotiationSession) : NegotiationSession :=
  { s with status := .failed, outcome := some .no_deal }

/-! ## WhatsApp variant (whatsapp_negotiator.py)

extract_price_from_message tries four regex patterns in order, without
lowercasing and without stripping commas; the rs and only literals are
matched case-insensitively.  A matched group whose comma-stripped text is
empty makes the Decimal constructor raise, and the except/continue in the
source then abandons that whole pattern (only the first match of each
pattern is ever tried). -/

def ciStartsWith : List Char → List Char → Bool
  | [], _ => true
  | _ :: _, [] => false
  | p :: ps, c :: cs => p = c.toLower && ciStartsWith ps cs

def pyStrip (l : List Char) : List Char :=
  ((l.dropWhile isSpace).reverse.dropWhile isSpace).reverse

def containsSub (needle : List Char) : List Char → Bool
  | [] => startsWith needle []
  | c :: rest => startsWith needle (c :: rest) || containsSub needle rest

/-- Digits or commas, the character class of the groups of patterns 1 and 2. -/
def isDigitOrComma (c : Char) : Bool := isDigit c || c = ','

/-- Decimal(group with commas removed); an all-comma group raises, which the
source turns into abandoning the pattern. -/
def commaStrippedPrice (g : List Char) : Option Price :=
  let d := g.filter (fun c => c ≠ ',')
  if d = [] then none else some ⟨(natOfDigits d : Int), 1⟩

/-- WhatsApp pattern 1 at a position: rupee sign, optional spaces, then a
nonempty run of digits or commas (the group). -/
def wa_pat1_at : List Char → Option (List Char)
  | '₹' :: rest =>
    let g := (skipSpaces rest).takeWhile isDigitOrComma
    if g = [] then none else some g
  | _ => none

/-- WhatsApp pattern 2 at a position: the letters r s (any case), an optional
dot, optional spaces, then a nonempty run of digits or commas. -/
def wa_pat2_at : List Char → Option (List Char)
  | c1 :: c2 :: rest =>
    if c1.toLower = 'r' && c2.toLower = 's' then
      let r := match rest with
        | '.' :: r2 => skipSpaces r2
        | _ => skipSpaces rest
      let g := r.takeWhile isDigitOrComma
      if g = [] then none else some g
    else none
  | _ => none

/-- WhatsApp pattern 3 at a position: at least three digits, optional spaces,
then rs, rupees, rupee (any case) or the slash-dash marker. -/
def wa_pat3_at (l : List Char) : Option Price :=
  match l with
  | c :: _ =>
    if isDigit c then
      let d := l.takeWhile isDigit
      let r := skipSpaces (l.dropWhile isDigit)
      if d.length ≥ 3 && (ciStartsWith "rs".toList r || ciStartsWith "rupees".toList r ||
          ciStartsWith "rupee".toList r || startsWith "/-".toList r) then
        some ⟨(natOfDigits d : Int), 1⟩
      else none
    else none
  | [] => none

/-- Continuation of WhatsApp pattern 4 after the number group: optional
spaces, an optional case-insensitive only, then the end of the text. -/
def wa4_tail (l : List Char) : Bool :=
  let r := skipSpaces l
  r = [] || (ciStartsWith "only".toList r && r.drop 4 = [])

/-- WhatsApp pattern 4: digits, an optional comma, more optional digits, then
spaces, an optional only, anchored at the end of the text.  Shorter digit
splits of the greedy group are always followed by a digit and so can never
satisfy the anchored tail; only the splits below can match. -/
def wa_pat4 : List Char → Option Price
  | [] => none
  | c :: rest =>
    if isDigit c then
      let d1 := (c :: rest).takeWhile isDigit
      let r1 := (c :: rest).dropWhile isDigit
      match r1 with
      | ',' :: r2 =>
        let d2 := r2.takeWhile isDigit
        let r3 := r2.dropWhile isDigit
        if d2 ≠ [] then
          if wa4_tail r3 then some ⟨(natOfDigits (d1 ++ d2) : Int), 1⟩ else wa_pat4 rest
        else
          if wa4_tail r2 then some ⟨(natOfDigits d1 : Int), 1⟩ else wa_pat4 rest
      | _ => if wa4_tail r1 then some ⟨(natOfDigits d1 : Int), 1⟩ else wa_pat4 rest
    else wa_pat4 rest

/-- whatsapp_negotiator.py extract_price_from_message. -/
def extract_price_from_message (message : String) : Option Price :=
  let t := message.toList
  (scanPos wa_pat1_at t).bind commaStrippedPrice <|>
  (scanPos wa_pat2_at t).bind commaStrippedPrice <|>
  scanPos wa_pat3_at t <|>
  wa_pat4 t

/-- Characters after the first occurrence of the needle, if any. -/
def afterFirst (needle : List Char) : List Char → Option (List Char)
  | [] => none
  | c :: rest =>
    if startsWith needle (c :: rest) then some ((c :: rest).drop needle.length)
    else afterFirst needle rest

/-- Characters up to the next occurrence of the needle (all of them if none):
together with afterFirst this is the second field of a Python split. -/
def upToNext (needle : List Char) : List Char → List Char
  | [] => []
  | c :: rest =>
    if startsWith needle (c :: rest) then []
    else c :: upToNext needle rest

/-- Python Decimal constructor on plain decimal literals: optional sign,
digits with an optional fraction part (exotic accepted forms such as
exponents are not modelled; nothing in scope produces them). -/
def parse_unsigned_decimal (l : List Char) : Option Price :=
  match numAt l with
  | some (p, rest) => if rest = [] ∨ rest = ['.'] then some p else none
  | none =>
    match l with
    | '.' :: r =>
      let d := r.takeWhile isDigit
      if d ≠ [] ∧ r.dropWhile isDigit = [] then some ⟨(natOfDigits d : Int), 10 ^ d.length⟩
      else none
    | _ => none

def parse_py_decimal (l : List Char) : Option Price :=
  match l with
  | '-' :: r => (parse_unsigned_decimal r).map (fun p => ⟨-p.num, p.den⟩)
  | '+' :: r => parse_unsigned_decimal r
  | _ => parse_unsigned_decimal l

/-- whatsapp_negotiator.py process_provider_response, the DEAL ACCEPTED
parse: the text between the first marker and the next one (or the end),
stripped, with rupee signs and commas removed, stripped again, fed to
Decimal; an unparsable remainder is swallowed by the except. -/
def deal_accepted_price (ai_response : String) : Option Price :=
  match afterFirst "DEAL ACCEPTED:".toList ai_response.toList with
  | none => none
  | some seg =>
    let s1 := pyStrip (upToNext "DEAL ACCEPTED:".toList seg)
    let s2 := pyStrip (s1.filter (fun c => c ≠ '₹' && c ≠ ','))
    parse_py_decimal s2

/-- The replies process_provider_response can return to the transport. -/
inductive WaReply
  | expiredMsg
  | finalMsg (p : Price)
  | aiMsg (t : String)
deriving Repr, DecidableEq

/-- whatsapp_negotiator.py finalize_negotiation, restricted to the session
fields (the request attributes it also touches are not model fields, and the
notification goes to the external sink). -/
def finalize_negotiation (s : NegotiationSession) (agreed_price : Price) (out : Outcome) :
    NegotiationSession :=
  { s with status := .completed, outcome := some out, current_offer := some agreed_price }

/-- The tail of process_provider_response after the threshold logic: the AI
reply (an external input here) is scanned for the DEAL ACCEPTED and DEAL
FAILED markers and otherwise appended to the history and sent. -/
def wa_ai_phase (s : NegotiationSession) (ai_response : String) : NegotiationSession × WaReply :=
  match deal_accepted_price ai_response with
  | some q => (finalize_negotiation s q .agreed, .finalMsg q)
  | none =>
    let s1 := if containsSub "DEAL FAILED:".toList ai_response.toList then
        { s with status := .failed, outcome := some .no_deal }
      else s
    (s1.add_message "assistant" ai_response, .aiMsg ai_response)

/-- whatsapp_negotiator.py process_provider_response, acting on the active
session the phone number resolved to.  The AI reply is an input: the source
obtains it from an external chat service. -/
def process_provider_response (s : NegotiationSession) (message : String) (ai_response : String)
    (now : Nat) : NegotiationSession × WaReply :=
  if s.is_expired now then
    ({ s with status := .expired, outcome := some .timeout }, .expiredMsg)
  else
    let s1 := s.add_message "user" message
    match extract_price_from_message message with
    | some p =>
      if p.truthy then
        let s2 := { s1 with current_offer := some p }
        if p.le s2.min_acceptable then (finalize_negotiation s2 p .agreed, .finalMsg p)
        else wa_ai_phase s2 ai_response
      else wa_ai_phase s1 ai_response
    | none => wa_ai_phase s1 ai_response

/-! ## Orchestrator, expiry scheduler and selection (tasks.py, views.py)

The database state is reduced to one ServiceRequest and its list of
NegotiationSession rows.  Providers carry the two reachable identities the
fan-out consults.  Messaging sends, translations and notifications go to
external sinks and never feed back into this state. -/

structure Provider where
  pid : Nat := 0
  telegram_chat_id : Option String := none
  phone_number : Option String := none
deriving Repr, DecidableEq

/-- models.py ServiceRequest, restricted to the fields the negotiation
claims are about. -/
structure ServiceRequest where
  status : ReqStatus := .PENDING
  customer_budget : Price
  providers_contacted : Nat := 0
  offers_received : Nat := 0
  selected_offer : Option Nat := none
deriving Repr, DecidableEq

structure DB where
  request : ServiceRequest
  sessions : List NegotiationSession := []
deriving Repr, DecidableEq

/-- tasks.py negotiate_with_providers: telegram_chat_id if set, else the
phone number (a blank identity is modelled as none, matching Python
falsiness of empty strings). -/
def provider_identifier (p : Provider) : Option String :=
  match p.telegram_chat_id with
  | some t => some t
  | none => p.phone_number

/-- The existing-active-session guard used before creating a session, both
in tasks.py negotiate_with_providers and in views.py request_service. -/
def has_active_for (sessions : List NegotiationSession) (ident : String) : Bool :=
  sessions.any (fun s => s.provider_phone == ident && s.status == SessionStatus.active)

/-- NegotiationSession.objects.create as called by the two fan-out loops. -/
def mkSession (sid : Nat) (ident : String) (maxp minacc : Price) (expires : Nat) :
    NegotiationSession :=
  { id := sid, provider_phone := ident, max_price := maxp, min_acceptable := minacc,
    status := .active, expires_at := expires }

/-- One iteration of the provider loop of tasks.py negotiate_with_providers:
skip a provider without identity, skip when an active session exists,
otherwise create the session and count it. -/
def fanout_step (maxp minacc : Price) (expires : Nat)
    (acc : List NegotiationSession × Nat) (p : Provider) : List NegotiationSession × Nat :=
  match provider_identifier p with
  | none => acc
  | some ident =>
    if has_active_for acc.1 ident then acc
    else (acc.1 ++ [mkSession acc.1.length ident maxp minacc expires], acc.2 + 1)

/-- tasks.py negotiate_with_providers: set NEGOTIATING, fan out to at most
ten matched providers with min_acceptable = 0.7 times the budget, then
overwrite providers_contacted with the number of sessions created in this
run and fall back to EXPIRED when that number is zero. -/
def negotiate_with_providers (db : DB) (providers : List Provider) (expires : Nat) : DB :=
  let req1 := { db.request with status := ReqStatus.NEGOTIATING }
  if providers = [] then { db with request := { req1 with status := .EXPIRED } }
  else
    let maxp := req1.customer_budget
    let minacc := maxp.mulFrac 7 10
    let r := (providers.take 10).foldl (fanout_step maxp minacc expires) (db.sessions, 0)
    let req2 := { req1 with providers_contacted := r.2 }
    if r.2 = 0 then { request := { req2 with status := .EXPIRED }, sessions := r.1 }
    else { request := req2, sessions := r.1 }

/-- tasks.py check_negotiation_status, the per-session expiry step. -/
def expire_if_active (s : NegotiationSession) : NegotiationSession :=
  if s.status = .active then { s with status := .expired, outcome := some .timeout } else s

/-- The successful-negotiation filter of tasks.py check_negotiation_status. -/
def is_agreed_offer (s : NegotiationSession) : Bool :=
  s.status == SessionStatus.completed && s.outcome == some Outcome.agreed

/-- tasks.py check_negotiation_status: a no-op on ACCEPTED or CANCELLED
requests; otherwise expire the still-active sessions, recount the agreed
offers into offers_received and set OFFERS_READY or EXPIRED.  The customer
notification goes to the external sink and is not part of this state. -/
def check_negotiation_status (db : DB) : DB :=
  if db.request.status = .ACCEPTED ∨ db.request.status = .CANCELLED then db
  else
    let sessions1 := db.sessions.map expire_if_active
    let offers := (sessions1.filter is_agreed_offer).length
    let st := if offers > 0 then ReqStatus.OFFERS_READY else ReqStatus.EXPIRED
    { request := { db.request with offers_received := offers, status := st },
      sessions := sessions1 }

/-- One iteration of the provider loop of views.py request_service: only
providers with a linked Telegram chat get sessions (the rest get an in-app
notification), behind the same existing-active-session guard. -/
def request_service_step (budget : Price) (expires : Nat)
    (acc : List NegotiationSession × Nat) (p : Provider) : List NegotiationSession × Nat :=
  match p.telegram_chat_id with
  | none => acc
  | some chat =>
    if has_active_for acc.1 chat then acc
    else (acc.1 ++ [mkSession acc.1.length chat budget (budget.mulFrac 7 10) expires], acc.2 + 1)

/-- views.py request_service, the fan-out part: the request is freshly
created, sessions are created per matched provider, and the request ends
NEGOTIATING when at least one provider was contacted, else PENDING. -/
def request_service (budget : Price) (providers : List Provider) (expires : Nat) : DB :=
  let r := providers.foldl (request_service_step budget expires) ([], 0)
  { request := { status := if r.2 > 0 then .NEGOTIATING else .PENDING,
                 customer_budget := budget, providers_contacted := r.2 },
    sessions := r.1 }

inductive SelectResult
  | offerNotFound
  | notValidOffer
  | providerNotFound
  | created
deriving Repr, DecidableEq

/-- views.py select_offer: look the session up within the request, reject a
session that is not completed with outcome agreed, then set selected_offer
and ACCEPTED.  Whether the provider row resolves is an external lookup,
passed in as a flag.  The source never checks the current request status. -/
def select_offer (db : DB) (session_id : Nat) (providerFound : Bool) : SelectResult × DB :=
  match db.sessions.find? (fun s => s.id == session_id) with
  | none => (.offerNotFound, db)
  | some s =>
    if ¬ (s.status = .completed ∧ s.outcome = some .agreed) then (.notValidOffer, db)
    else if ¬ providerFound then (.providerNotFound, db)
    else
      let req1 := { db.request with selected_offer := some session_id,
                                    status := ReqStatus.ACCEPTED }
      (.created, { db with request := req1 })

inductive CancelResult
  | cannotCancel
  | cancelledOk
deriving Repr, DecidableEq

/-- views.py cancel_negotiation, after the ownership check: reject unless the
session is active, otherwise set status completed and outcome cancelled and
notify the provider over the transport. -/
def cancel_negotiation (s : NegotiationSession) : CancelResult × NegotiationSession :=
  if s.status ≠ .active then (.cannotCancel, s)
  else (.cancelledOk, { s with status := .completed, outcome := some .cancelled })

/-! ## Derived notions used to state the claims -/

/-- The message contains at least one digit. -/
def hasDigit (text : String) : Bool := text.toList.any isDigit

/-- Number of active sessions recorded for one provider identity
(the per-pair multiplicity the idempotency guard is about). -/
def activeCount (sessions : List NegotiationSession) (ident : String) : Nat :=
  (sessions.filter
    (fun s => s.provider_phone == ident && s.status == SessionStatus.active)).length

/-- Every (request, provider) pair has at most one active session: the state
invariant of claim C5, for the session list of one request. -/
def atMostOneActive (sessions : List NegotiationSession) : Prop :=
  ∀ ident : String, activeCount sessions ident ≤ 1

/-! ## Concrete fixtures used by counterexamples and witnesses -/

/-- A session exactly as the tasks.py fan-out creates it: budget 1000,
min_acceptable = 0.7 times the budget, active, deadline 100. -/
def sampleSession : NegotiationSession :=
  mkSession 1 "chat1" ⟨1000, 1⟩ (Price.mulFrac ⟨1000, 1⟩ 7 10) 100

/-- The same session already past its deadline at observation time 20. -/
def earlySession : NegotiationSession :=
  mkSession 3 "chat1" ⟨1000, 1⟩ (Price.mulFrac ⟨1000, 1⟩ 7 10) 10

/-- A request with two completed agreed offers at 750 and 800. -/
def dbOffers : DB :=
  { request := { status := .OFFERS_READY, customer_budget := ⟨1000, 1⟩,
                 providers_contacted := 2, offers_received := 2 },
    sessions :=
      [ { id := 1, provider_phone := "a", max_price := ⟨1000, 1⟩,
          min_acceptable := ⟨700, 1⟩, current_offer := some ⟨750, 1⟩,
          status := .completed, outcome := some .agreed, expires_at := 100 },
        { id := 2, provider_phone := "b", max_price := ⟨1000, 1⟩,
          min_acceptable := ⟨700, 1⟩, current_offer := some ⟨800, 1⟩,
          status := .completed, outcome := some .agreed, expires_at := 100 } ] }

/-- A freshly created request with budget 1000 and no sessions yet. -/
def dbFresh : DB := { request := { customer_budget := ⟨1000, 1⟩ } }

/-- One matched provider reachable over Telegram. -/
def oneProvider : List Provider := [{ pid := 1, telegram_chat_id := some "chat1" }]

/-- A request already accepted by the customer. -/
def dbAccepted : DB :=
  { request := { status := .ACCEPTED, customer_budget := ⟨1000, 1⟩ } }

/-! ## Regression checks of the embedded price extraction -/

/-- The embedded Telegram extraction on representative inputs. -/
theorem extract_price_examples :
    extract_price "1500" = some ⟨1500, 1⟩ ∧
    extract_price "₹ 650" = some ⟨650, 1⟩ ∧
    extract_price "Rs. 1,200" = some ⟨1200, 1⟩ ∧
    extract_price "see you at 5 pm" = some ⟨5, 1⟩ ∧
    extract_price "0" = some ⟨0, 1⟩ ∧
    extract_price "hello there" = none ∧
    extract_price "800 rupees" = some ⟨800, 1⟩ ∧
    extract_price "I can do it for 5.5" = some ⟨55, 10⟩ := by decide

/-- The embedded WhatsApp extraction on representative inputs. -/
theorem extract_price_from_message_examples :
    extract_price_from_message "650" = some ⟨650, 1⟩ ∧
    extract_price_from_message "1500" = some ⟨1500, 1⟩ ∧
    extract_price_from_message "₹1,500" = some ⟨1500, 1⟩ ∧
    extract_price_from_message "1500 rs" = some ⟨1500, 1⟩ ∧
    extract_price_from_message "1,500 only" = some ⟨1500, 1⟩ ∧
    extract_price_from_message "maybe 650 later today" = none ∧
    deal_accepted_price "DEAL ACCEPTED: ₹1,500" = some ⟨1500, 1⟩ ∧
    deal_accepted_price "ok fine" = none := by decide

/-! ## The claims -/

/-- Claim C1: outcome agreed should imply current_offer at most max_price in
every reachable state.  The code violates this: on a fresh session with
budget 1000 (min acceptable 700) the provider message 1500 leaves the
session active with current_offer 1500, and the accept button callback
(handle_accept, which neither filters on status nor compares the offer with
the budget) then finalizes it as completed with outcome agreed at
current_offer 1500, strictly above max_price — contradicting the budget
invariant and the models.py field documentation of max_price (never exceed
this). -/
theorem c1_budget_invariant_violated :
    (handle_negotiation_message sampleSession "1500").1.status = .active ∧
    (handle_negotiation_message sampleSession "1500").1.current_offer = some ⟨1500, 1⟩ ∧
    (handle_accept (handle_negotiation_message sampleSession "1500").1).status = .completed ∧
    (handle_accept (handle_negotiation_message sampleSession "1500").1).outcome = some .agreed ∧
    (handle_accept (handle_negotiation_message sampleSession "1500").1).current_offer
      = some ⟨1500, 1⟩ ∧
    Price.le ⟨1500, 1⟩
      (handle_accept (handle_negotiation_message sampleSession "1500").1).max_price = false := by
  decide

/-- Claim C2, counterexample: in the WhatsApp handler a parsed offer of 1500
strictly above max_price 1000 can still end the handling of that very
message with the session completed, outcome agreed and current_offer 1500 —
it suffices that the externally produced AI reply carries the DEAL ACCEPTED
marker, which finalize_negotiation then applies without any budget check. -/
theorem c2_counterexample :
    extract_price_from_message "1500" = some ⟨1500, 1⟩ ∧
    Price.le ⟨1500, 1⟩ sampleSession.max_price = false ∧
    (process_provider_response sampleSession "1500" "DEAL ACCEPTED: 1500" 50).1.status
      = .completed ∧
    (process_provider_response sampleSession "1500" "DEAL ACCEPTED: 1500" 50).1.outcome
      = some .agreed ∧
    (process_provider_response sampleSession "1500" "DEAL ACCEPTED: 1500" 50).1.current_offer
      = some ⟨1500, 1⟩ := by decide

/-- Claim C3, counterexample: with budget 1000 and min acceptable 700 the
offer 800 does not produce the midpoint counter 750, and the offer 1500
does not produce min(1000, 1275) = 1000: the Telegram handler never writes
counter_offer at all (it stays none in both cases), sending only a
within-budget prompt resp. an AI text, each with accept or reject or
counter buttons. -/
theorem c3_counterexample :
    (handle_negotiation_message sampleSession "800").1.current_offer = some ⟨800, 1⟩ ∧
    (handle_negotiation_message sampleSession "800").1.counter_offer = none ∧
    (handle_negotiation_message sampleSession "800").1.counter_offer ≠ some ⟨750, 1⟩ ∧
    (handle_negotiation_message sampleSession "800").2 = .optionsInRange ⟨800, 1⟩ ∧
    (handle_negotiation_message sampleSession "1500").1.counter_offer = none ∧
    (handle_negotiation_message sampleSession "1500").1.counter_offer ≠ some ⟨1000, 1⟩ ∧
    (handle_negotiation_message sampleSession "1500").2 = .optionsTooHigh ⟨1500, 1⟩ := by decide

/-- Claim C4, counterexample: after select_offer has accepted session 1
(request ACCEPTED, selected_offer 1), a second select_offer call on the
same request with session 2 succeeds again instead of failing with an
InvalidState rejection, and reassigns selected_offer to 2: the source never
checks whether the request is already ACCEPTED. -/
theorem c4_counterexample :
    (select_offer dbOffers 1 true).1 = .created ∧
    (select_offer dbOffers 1 true).2.request.status = .ACCEPTED ∧
    (select_offer dbOffers 1 true).2.request.selected_offer = some 1 ∧
    (select_offer (select_offer dbOffers 1 true).2 2 true).1 = .created ∧
    (select_offer (select_offer dbOffers 1 true).2 2 true).2.request.selected_offer
      = some 2 := by decide

/-- Claim C6: providers_contacted is claimed never to decrease, including
under a repeated fan-out invocation.  The code violates this: the first
fan-out run contacts the single matched provider (counter 1, NEGOTIATING);
a second run on the same request skips that provider at the idempotency
guard, leaving this runs created-session count at 0, and then overwrites
providers_contacted with 0 and flips the request to EXPIRED while its one
negotiation is still active. -/
theorem c6_counter_decreases :
    (negotiate_with_providers dbFresh oneProvider 100).request.providers_contacted = 1 ∧
    (negotiate_with_providers dbFresh oneProvider 100).request.status = .NEGOTIATING ∧
    (negotiate_with_providers (negotiate_with_providers dbFresh oneProvider 100)
        oneProvider 200).request.providers_contacted = 0 ∧
    (negotiate_with_providers (negotiate_with_providers dbFresh oneProvider 100)
        oneProvider 200).request.status = .EXPIRED ∧
    ((negotiate_with_providers (negotiate_with_providers dbFresh oneProvider 100)
        oneProvider 200).sessions.filter
          (fun s => s.status == SessionStatus.active)).length = 1 := by decide

/-- Claim C7, counterexample: the message 0 contains a digit and the
extraction parses it to the price 0, yet the handler reaches the no-price
branch (Python treats the float 0.0 as falsy), leaving the session
untouched and asking for a price — so the no-price branch is not reached
only for messages with no digits at all. -/
theorem c7_counterexample :
    extract_price "0" = some ⟨0, 1⟩ ∧
    handle_negotiation_message sampleSession "0" = (sampleSession, .askPrice) := by decide

/-- Claim C8, counterexample: the Telegram inbound handler consults no clock
and performs no expiry check, so a still-active session whose deadline 10
has long passed (observation instant 20) is processed normally — here the
message 650 is even auto-accepted into completed and agreed — instead of
being transitioned to expired with outcome timeout. -/
theorem c8_counterexample :
    earlySession.is_expired 20 = true ∧
    (handle_negotiation_message earlySession "650").1.status = .completed ∧
    (handle_negotiation_message earlySession "650").1.status ≠ .expired ∧
    (handle_negotiation_message earlySession "650").1.outcome = some .agreed ∧
    (handle_negotiation_message earlySession "650").1.current_offer = some ⟨650, 1⟩ := by decide

/-- Claim C10, counterexample: on an active session cancel_negotiation
succeeds but sets status completed (not failed as claimed), with outcome
cancelled. -/
theorem c10_counterexample :
    (cancel_negotiation sampleSession).1 = .cancelledOk ∧
    (cancel_negotiation sampleSession).2.status = .completed ∧
    (cancel_negotiation sampleSession).2.status ≠ .failed ∧
    (cancel_negotiation sampleSession).2.outcome = some .cancelled := by decide

/-- Claim C8, amended: restricted to the WhatsApp inbound handler the claim
holds — an inbound message on an active session whose deadline has passed
transitions the session to expired with outcome timeout and replies with the
expiry notice, with no price extraction, history append or other mutation on
that message.  (The Telegram handler performs no such check, see the
counterexample.) -/
theorem c8_amended (s : NegotiationSession) (msg ai : String) (now : Nat)
    (h : s.is_expired now = true) :
    process_provider_response s msg ai now =
      ({ s with status := .expired, outcome := some .timeout }, .expiredMsg) := by
  simp [process_provider_response, h]

/-- Claim C8, amended, witness at the expired fixture session. -/
theorem c8_amended_witness :
    process_provider_response earlySession "650" "whatever" 20 =
      ({ earlySession with status := .expired, outcome := some .timeout }, .expiredMsg) :=
  c8_amended earlySession "650" "whatever" 20 (by decide)

/-- Claim C10, amended: cancel_negotiation succeeds only while the session is
active (a non-active session is rejected with the session unchanged); on
success it sets status completed — not failed, as claimed — with outcome
cancelled, and notifies the provider over the transport. -/
theorem c10_amended (s : NegotiationSession) :
    (s.status ≠ .active → cancel_negotiation s = (.cannotCancel, s)) ∧
    (s.status = .active → cancel_negotiation s =
      (.cancelledOk, { s with status := .completed, outcome := some .cancelled })) := by
  constructor
  · intro h; simp [cancel_negotiation, h]
  · intro h; simp [cancel_negotiation, h]

/-- Claim C10, amended, witness: cancelling the active fixture session
succeeds with completed and cancelled; cancelling the resulting completed
session is rejected with the session unchanged. -/
theorem c10_amended_witness :
    cancel_negotiation sampleSession =
      (.cancelledOk, { sampleSession with status := .completed, outcome := some .cancelled }) ∧
    cancel_negotiation (cancel_negotiation sampleSession).2 =
      (.cannotCancel, (cancel_negotiation sampleSession).2) :=
  ⟨(c10_amended sampleSession).2 (by decide),
   (c10_amended (cancel_negotiation sampleSession).2).1 (by decide)⟩

/-- Claim C4, amended: select_offer validates only that the session belongs
to the request and is completed with outcome agreed; it never checks whether
the request is already ACCEPTED, so a second successful call is possible and
reassigns selected_offer — the conclusion below holds for every current
request state, in particular an already ACCEPTED one. -/
theorem c4_amended (db : DB) (sid : Nat) (s : NegotiationSession)
    (hfind : db.sessions.find? (fun t => t.id == sid) = some s)
    (hst : s.status = .completed) (hout : s.outcome = some .agreed) :
    (select_offer db sid true).1 = .created ∧
    (select_offer db sid true).2.request.selected_offer = some sid ∧
    (select_offer db sid true).2.request.status = .ACCEPTED ∧
    (select_offer db sid true).2.sessions = db.sessions := by
  simp [select_offer, hfind, hst, hout]

/-- Claim C4, amended, witness: the second selection on the already ACCEPTED
request of the counterexample succeeds and reassigns selected_offer. -/
theorem c4_amended_witness :
    (select_offer (select_offer dbOffers 1 true).2 2 true).1 = .created ∧
    (select_offer (select_offer dbOffers 1 true).2 2 true).2.request.selected_offer = some 2 ∧
    (select_offer (select_offer dbOffers 1 true).2 2 true).2.request.status = .ACCEPTED ∧
    (select_offer (select_offer dbOffers 1 true).2 2 true).2.sessions =
      (select_offer dbOffers 1 true).2.sessions :=
  c4_amended (select_offer dbOffers 1 true).2 2
    { id := 2, provider_phone := "b", max_price := ⟨1000, 1⟩,
      min_acceptable := ⟨700, 1⟩, current_offer := some ⟨800, 1⟩,
      status := .completed, outcome := some .agreed, expires_at := 100 }
    (by decide) (by decide) (by decide)

/-- With positive denominators, a price strictly above the maximum is not
below a minimum that is itself at most the maximum. -/
theorem price_le_false_of_between {pmin pmax p : Price}
    (hd1 : 0 < pmin.den) (hd3 : 0 < pmax.den)
    (hcfg : Price.le pmin pmax = true) (hp : Price.lt pmax p = true) :
    Price.le p pmin = false := by
  simp only [Price.le, Price.lt, decide_eq_true_eq, decide_eq_false_iff_not, not_le] at *
  have hd1i : (0 : Int) < (pmin.den : Int) := by exact_mod_cast hd1
  have hd3i : (0 : Int) < (pmax.den : Int) := by exact_mod_cast hd3
  have hpd : (0 : Int) ≤ (p.den : Int) := Int.natCast_nonneg _
  have h1 : pmin.num * pmax.den * p.den ≤ pmax.num * pmin.den * p.den :=
    mul_le_mul_of_nonneg_right hcfg hpd
  have h2 : pmax.num * p.den * pmin.den < p.num * pmax.den * pmin.den :=
    mul_lt_mul_of_pos_right hp hd1i
  have h3 : pmin.num * p.den * pmax.den < p.num * pmin.den * pmax.den := by nlinarith
  exact lt_of_mul_lt_mul_right h3 (le_of_lt hd3i)

/-- Claim C2, amended: the threshold logic is correct where it is the only
accepting mechanism.  (1) In the Telegram handler a parsed nonzero offer at
or below min_acceptable auto-accepts: completed, agreed, current_offer p.
(2) In the Telegram handler a parsed offer strictly above max_price (with
the creation invariant min_acceptable at most max_price, positive
denominators) never auto-accepts: the session stays active with its outcome
unchanged and only a counter message with buttons is sent.  (3) In the
WhatsApp handler a parsed nonzero offer at or below min_acceptable
auto-accepts regardless of the AI reply.  Only the WhatsApp AI free-text
path can break the above-max half, see the counterexample. -/
theorem c2_threshold_amended :
    (∀ (s : NegotiationSession) (text : String) (p : Price),
      extract_price text = some p → p.truthy = true →
      Price.le p s.min_acceptable = true →
      (handle_negotiation_message s text).1.status = .completed ∧
      (handle_negotiation_message s text).1.outcome = some .agreed ∧
      (handle_negotiation_message s text).1.current_offer = some p) ∧
    (∀ (s : NegotiationSession) (text : String) (p : Price),
      s.status = .active →
      extract_price text = some p → p.truthy = true →
      0 < s.min_acceptable.den → 0 < s.max_price.den →
      Price.le s.min_acceptable s.max_price = true →
      Price.lt s.max_price p = true →
      (handle_negotiation_message s text).1.status = .active ∧
      (handle_negotiation_message s text).1.outcome = s.outcome ∧
      (handle_negotiation_message s text).2 = .optionsTooHigh p) ∧
    (∀ (s : NegotiationSession) (msg ai : String) (now : Nat) (p : Price),
      s.is_expired now = false →
      extract_price_from_message msg = some p → p.truthy = true →
      Price.le p s.min_acceptable = true →
      (process_provider_response s msg ai now).1.status = .completed ∧
      (process_provider_response s msg ai now).1.outcome = some .agreed ∧
      (process_provider_response s msg ai now).1.current_offer = some p ∧
      (process_provider_response s msg ai now).2 = .finalMsg p) := by
  refine ⟨fun s text p h1 h2 h3 => ?_, fun s text p hs h1 h2 hd1 hd3 hcfg hp => ?_,
    fun s msg ai now p hne h1 h2 h3 => ?_⟩
  · simp [handle_negotiation_message, h1, h2, h3]
  · have hle := price_le_false_of_between hd1 hd3 hcfg hp
    simp [handle_negotiation_message, h1, h2, hle, hp, hs]
  · simp [process_provider_response, hne, h1, h2, h3, finalize_negotiation,
      NegotiationSession.add_message]

/-- Claim C2, amended, witness: on the fixture session the offer 650
auto-accepts in both handlers, and the offer 1500 leaves the Telegram
session active with a counter message. -/
theorem c2_threshold_amended_witness :
    ((handle_negotiation_message sampleSession "650").1.status = .completed ∧
     (handle_negotiation_message sampleSession "650").1.outcome = some .agreed ∧
     (handle_negotiation_message sampleSession "650").1.current_offer = some ⟨650, 1⟩) ∧
    ((handle_negotiation_message sampleSession "1500").1.status = .active ∧
     (handle_negotiation_message sampleSession "1500").1.outcome = sampleSession.outcome ∧
     (handle_negotiation_message sampleSession "1500").2 = .optionsTooHigh ⟨1500, 1⟩) ∧
    ((process_provider_response sampleSession "650" "ok" 50).1.status = .completed ∧
     (process_provider_response sampleSession "650" "ok" 50).1.outcome = some .agreed ∧
     (process_provider_response sampleSession "650" "ok" 50).1.current_offer = some ⟨650, 1⟩ ∧
     (process_provider_response sampleSession "650" "ok" 50).2 = .finalMsg ⟨650, 1⟩) :=
  ⟨c2_threshold_amended.1 sampleSession "650" ⟨650, 1⟩ (by decide) (by decide) (by decide),
   c2_threshold_amended.2.1 sampleSession "1500" ⟨1500, 1⟩ (by decide) (by decide) (by decide)
     (by decide) (by decide) (by decide) (by decide),
   c2_threshold_amended.2.2 sampleSession "650" "ok" 50 ⟨650, 1⟩ (by decide) (by decide)
     (by decide) (by decide)⟩

/-- Claim C3, amended: the handler computes no numeric counter-offer at all.
(1) counter_offer is never written by the Telegram message handler — it is
unchanged on every input.  (2) A parsed nonzero offer above min_acceptable
leaves the session active with current_offer p, and the reply is either the
AI-worded too-high message or the within-budget prompt, each with accept,
reject and counter buttons; no midpoint and no 0.85 rule exists anywhere in
the source. -/
theorem c3_negotiate_amended :
    (∀ (s : NegotiationSession) (text : String),
       (handle_negotiation_message s text).1.counter_offer = s.counter_offer) ∧
    (∀ (s : NegotiationSession) (text : String) (p : Price),
       s.status = .active → extract_price text = some p → p.truthy = true →
       Price.le p s.min_acceptable = false →
       (handle_negotiation_message s text).1.status = .active ∧
       (handle_negotiation_message s text).1.current_offer = some p ∧
       ((handle_negotiation_message s text).2 = .optionsTooHigh p ∨
        (handle_negotiation_message s text).2 = .optionsInRange p)) := by
  constructor
  · intro s text
    unfold handle_negotiation_message
    rcases extract_price text with _ | p
    · rfl
    · by_cases h2 : p.truthy
      · simp [h2]
        split_ifs <;> rfl
      · simp [h2]
  · intro s text p hs h1 h2 hle
    by_cases hlt : Price.lt s.max_price p = true
    · simp [handle_negotiation_message, h1, h2, hle, hlt, hs]
    · simp [handle_negotiation_message, h1, h2, hle, hlt, hs]

/-- Claim C3, amended, witness: the in-range offer 800 and the too-high
offer 1500 on the fixture session. -/
theorem c3_negotiate_amended_witness :
    (handle_negotiation_message sampleSession "800").1.counter_offer =
      sampleSession.counter_offer ∧
    ((handle_negotiation_message sampleSession "800").1.status = .active ∧
     (handle_negotiation_message sampleSession "800").1.current_offer = some ⟨800, 1⟩ ∧
     ((handle_negotiation_message sampleSession "800").2 = .optionsTooHigh ⟨800, 1⟩ ∨
      (handle_negotiation_message sampleSession "800").2 = .optionsInRange ⟨800, 1⟩)) :=
  ⟨c3_negotiate_amended.1 sampleSession "800",
   c3_negotiate_amended.2 sampleSession "800" ⟨800, 1⟩ (by decide) (by decide) (by decide)
     (by decide)⟩

/-- Lowercasing fixes digits: toLower only moves the basic latin capitals. -/
theorem toLower_digit {c : Char} (h : isDigit c = true) : c.toLower = c := by
  simp only [isDigit, Bool.and_eq_true, decide_eq_true_eq] at h
  simp only [Char.toLower]
  rw [if_neg (by omega)]

/-- A digit is not a comma, so the comma strip keeps it. -/
theorem digit_ne_comma {c : Char} (h : isDigit c = true) : c ≠ ',' := by
  intro hc
  rw [hc] at h
  exact absurd h (by decide)

/-- A digit of the raw message survives into the lowercased, comma-stripped
search text. -/
theorem searchText_hasDigit {text : String} (h : hasDigit text = true) :
    (tgSearchText text).any isDigit = true := by
  simp only [hasDigit, List.any_eq_true] at h
  obtain ⟨c, hc, hd⟩ := h
  simp only [List.any_eq_true]
  refine ⟨c, ?_, hd⟩
  simp only [tgSearchText, List.mem_filter, List.mem_map]
  exact ⟨⟨c, hc, toLower_digit hd⟩, by simp [digit_ne_comma hd]⟩

/-- The numeral parser succeeds whenever it starts on a digit. -/
theorem numAt_isSome_of_digit {c : Char} {rest : List Char} (hc : isDigit c = true) :
    (numAt (c :: rest)).isSome = true := by
  simp only [numAt, List.takeWhile_cons, List.dropWhile_cons, hc, if_true, ite_true]
  rw [if_neg (by simp)]
  split
  · split <;> rfl
  · rfl

/-- The final catch-all pattern finds a number in any text with a digit. -/
theorem scanPos_pat5_isSome : ∀ {l : List Char}, l.any isDigit = true →
    (scanPos tg_pat5_at l).isSome = true := by
  intro l
  induction l with
  | nil => intro h; simp at h
  | cons c rest ih =>
    intro h
    by_cases hc : isDigit c = true
    · have h5 : (tg_pat5_at (c :: rest)).isSome = true := by
        simpa [tg_pat5_at] using numAt_isSome_of_digit hc
      obtain ⟨p, hp⟩ := Option.isSome_iff_exists.mp h5
      simp [scanPos, hp]
    · have hf : tg_pat5_at (c :: rest) = none := by
        simp [tg_pat5_at, numAt, List.takeWhile_cons, hc]
      have hrest : rest.any isDigit = true := by
        simp only [List.any_cons, Bool.or_eq_true] at h
        rcases h with h | h
        · exact absurd h hc
        · exact h
      rw [scanPos, hf]
      exact ih hrest

/-- A some on the right of an option alternative survives the alternative. -/
theorem option_orElse_isSome {α : Type} {a b : Option α} (h : b.isSome = true) :
    (a <|> b).isSome = true := by
  cases a
  · exact h
  · rfl

/-- Any message with a digit yields an extracted price: the catch-all
pattern guarantees a match whatever the earlier patterns do. -/
theorem extract_price_isSome_of_digit {text : String} (h : hasDigit text = true) :
    (extract_price text).isSome = true := by
  have h5 := scanPos_pat5_isSome (searchText_hasDigit h)
  unfold extract_price
  exact option_orElse_isSome (option_orElse_isSome (option_orElse_isSome
    (option_orElse_isSome h5)))

/-- Claim C7, amended: the fallback pattern matches any digit sequence, so
(1) every message containing a digit parses to some price; (2) every parsed
nonzero price is treated as an offer (current_offer is set and the reply is
not the ask-for-price prompt); (3) a message with no extractable number
takes the no-price branch with the session unchanged; (4) a message whose
parsed price is 0 also takes the no-price branch, because the Python
truthiness test treats 0.0 like None — so the no-price branch is reached
exactly for messages with no digits or with a zero parse; and (5) a parsed
nonzero number at or below min_acceptable — such as a time of day — at once
completes the session as agreed at that value. -/
theorem c7_price_fallback_amended :
    (∀ text : String, hasDigit text = true → (extract_price text).isSome = true) ∧
    (∀ (s : NegotiationSession) (text : String) (p : Price),
       extract_price text = some p → p.truthy = true →
       (handle_negotiation_message s text).1.current_offer = some p ∧
       (handle_negotiation_message s text).2 ≠ .askPrice) ∧
    (∀ (s : NegotiationSession) (text : String),
       extract_price text = none → handle_negotiation_message s text = (s, .askPrice)) ∧
    (∀ (s : NegotiationSession) (text : String) (p : Price),
       extract_price text = some p → p.truthy = false →
       handle_negotiation_message s text = (s, .askPrice)) ∧
    (∀ (s : NegotiationSession) (text : String) (p : Price),
       extract_price text = some p → p.truthy = true → Price.le p s.min_acceptable = true →
       (handle_negotiation_message s text).1.status = .completed ∧
       (handle_negotiation_message s text).1.outcome = some .agreed ∧
       (handle_negotiation_message s text).1.current_offer = some p) := by
  refine ⟨fun text h => extract_price_isSome_of_digit h,
    fun s text p h1 h2 => ?_, fun s text h1 => ?_, fun s text p h1 h2 => ?_,
    fun s text p h1 h2 h3 => ?_⟩
  · by_cases hle : Price.le p s.min_acceptable = true
    · simp [handle_negotiation_message, h1, h2, hle]
    · by_cases hlt : Price.lt s.max_price p = true
      · simp [handle_negotiation_message, h1, h2, hle, hlt]
      · simp [handle_negotiation_message, h1, h2, hle, hlt]
  · simp [handle_negotiation_message, h1]
  · simp [handle_negotiation_message, h1, h2]
  · simp [handle_negotiation_message, h1, h2, h3]

/-- Claim C7, amended, witness: the time-of-day message is parsed as the
price 5 and auto-accepted; a digitless message asks for a price. -/
theorem c7_price_fallback_amended_witness :
    (extract_price "see you at 5 pm").isSome = true ∧
    ((handle_negotiation_message sampleSession "see you at 5 pm").1.status = .completed ∧
     (handle_negotiation_message sampleSession "see you at 5 pm").1.outcome = some .agreed ∧
     (handle_negotiation_message sampleSession "see you at 5 pm").1.current_offer
       = some ⟨5, 1⟩) ∧
    handle_negotiation_message sampleSession "no digits here" = (sampleSession, .askPrice) :=
  ⟨c7_price_fallback_amended.1 "see you at 5 pm" (by decide),
   c7_price_fallback_amended.2.2.2.2 sampleSession "see you at 5 pm" ⟨5, 1⟩ (by decide)
     (by decide) (by decide),
   c7_price_fallback_amended.2.2.1 sampleSession "no digits here" (by decide)⟩

/-- When the guard reports no active session for an identity, that identity
has active count zero. -/
theorem activeCount_eq_zero_of_guard {l : List NegotiationSession} {ident : String}
    (h : has_active_for l ident = false) : activeCount l ident = 0 := by
  induction l with
  | nil => rfl
  | cons s rest ih =>
    simp only [has_active_for, List.any_cons, Bool.or_eq_false_iff] at h
    have ih2 := ih (by simp only [has_active_for]; exact h.2)
    simp only [activeCount, List.filter_cons, h.1, if_false, ite_false] at *
    exact ih2

/-- Appending one session changes one active count by at most its own
contribution. -/
theorem activeCount_append (l : List NegotiationSession) (x : NegotiationSession)
    (ident : String) :
    activeCount (l ++ [x]) ident =
      activeCount l ident +
        (if x.provider_phone == ident && x.status == SessionStatus.active then 1 else 0) := by
  simp only [activeCount, List.filter_append, List.length_append, List.filter_cons,
    List.filter_nil]
  split <;> simp

/-- The guarded create of the tasks.py fan-out loop preserves the at most
one active session per provider invariant. -/
theorem fanout_step_preserves (maxp minacc : Price) (expires : Nat)
    (acc : List NegotiationSession × Nat) (p : Provider)
    (h : atMostOneActive acc.1) :
    atMostOneActive (fanout_step maxp minacc expires acc p).1 := by
  intro φ
  cases hid : provider_identifier p with
  | none =>
    have hstep : fanout_step maxp minacc expires acc p = acc := by
      unfold fanout_step
      rw [hid]
    rw [hstep]
    exact h φ
  | some ident =>
    by_cases hg : has_active_for acc.1 ident = true
    · have hstep : fanout_step maxp minacc expires acc p = acc := by
        unfold fanout_step
        rw [hid]
        dsimp only
        rw [if_pos hg]
      rw [hstep]
      exact h φ
    · have hz := activeCount_eq_zero_of_guard (show has_active_for acc.1 ident = false by
        simpa using hg)
      have hstep : (fanout_step maxp minacc expires acc p).1 =
          acc.1 ++ [mkSession acc.1.length ident maxp minacc expires] := by
        unfold fanout_step
        rw [hid]
        dsimp only
        rw [if_neg hg]
      rw [hstep, activeCount_append]
      by_cases hφ : ident = φ
      · subst hφ
        simp [mkSession, hz]
      · have hne : ((mkSession acc.1.length ident maxp minacc expires).provider_phone == φ
            && (mkSession acc.1.length ident maxp minacc expires).status
            == SessionStatus.active) = false := by
          simp [mkSession, hφ]
        rw [hne]
        simpa using h φ

/-- Folding the tasks.py fan-out step over any provider list preserves the
invariant. -/
theorem foldl_fanout_preserves (maxp minacc : Price) (expires : Nat) :
    ∀ (ps : List Provider) (acc : List NegotiationSession × Nat),
      atMostOneActive acc.1 →
      atMostOneActive ((ps.foldl (fanout_step maxp minacc expires) acc).1) := by
  intro ps
  induction ps with
  | nil => intro acc h; exact h
  | cons p rest ih =>
    intro acc h
    exact ih _ (fanout_step_preserves maxp minacc expires acc p h)

/-- The guarded create of the views.py request_service loop preserves the
invariant as well. -/
theorem request_step_preserves (budget : Price) (expires : Nat)
    (acc : List NegotiationSession × Nat) (p : Provider)
    (h : atMostOneActive acc.1) :
    atMostOneActive (request_service_step budget expires acc p).1 := by
  intro φ
  cases hid : p.telegram_chat_id with
  | none =>
    have hstep : request_service_step budget expires acc p = acc := by
      unfold request_service_step
      rw [hid]
    rw [hstep]
    exact h φ
  | some chat =>
    by_cases hg : has_active_for acc.1 chat = true
    · have hstep : request_service_step budget expires acc p = acc := by
        unfold request_service_step
        rw [hid]
        dsimp only
        rw [if_pos hg]
      rw [hstep]
      exact h φ
    · have hz := activeCount_eq_zero_of_guard (show has_active_for acc.1 chat = false by
        simpa using hg)
      have hstep : (request_service_step budget expires acc p).1 =
          acc.1 ++ [mkSession acc.1.length chat budget (budget.mulFrac 7 10) expires] := by
        unfold request_service_step
        rw [hid]
        dsimp only
        rw [if_neg hg]
      rw [hstep, activeCount_append]
      by_cases hφ : chat = φ
      · subst hφ
        simp [mkSession, hz]
      · have hne : ((mkSession acc.1.length chat budget (budget.mulFrac 7 10)
            expires).provider_phone == φ
            && (mkSession acc.1.length chat budget (budget.mulFrac 7 10) expires).status
            == SessionStatus.active) = false := by
          simp [mkSession, hφ]
        rw [hne]
        simpa using h φ

theorem foldl_request_preserves (budget : Price) (expires : Nat) :
    ∀ (ps : List Provider) (acc : List NegotiationSession × Nat),
      atMostOneActive acc.1 →
      atMostOneActive ((ps.foldl (request_service_step budget expires) acc).1) := by
  intro ps
  induction ps with
  | nil => intro acc h; exact h
  | cons p rest ih =>
    intro acc h
    exact ih _ (request_step_preserves budget expires acc p h)

/-- One tasks.py fan-out run preserves the invariant. -/
theorem negotiate_preserves {db : DB} {ps : List Provider} {e : Nat}
    (h : atMostOneActive db.sessions) :
    atMostOneActive (negotiate_with_providers db ps e).sessions := by
  unfold negotiate_with_providers
  by_cases hps : ps = []
  · simp only [hps, if_true, ite_true]
    exact h
  · simp only [hps, if_false, ite_false]
    split
    · exact foldl_fanout_preserves _ _ _ _ _ h
    · exact foldl_fanout_preserves _ _ _ _ _ h

/-- Claim C5: for every request each provider identity has at most one
active session, and the fan-out keeps it so.  (1) One tasks.py fan-out run
preserves the invariant; (2) in particular running the fan-out twice on the
same request never yields two active sessions for one provider; (3) the
views.py request_service fan-out establishes the invariant from scratch.
The check-then-create guard queries the live session list, so duplicates
within one candidate list are caught too. -/
theorem c5_active_session_unique :
    (∀ (db : DB) (ps : List Provider) (e : Nat), atMostOneActive db.sessions →
       atMostOneActive (negotiate_with_providers db ps e).sessions) ∧
    (∀ (db : DB) (ps ps2 : List Provider) (e e2 : Nat), atMostOneActive db.sessions →
       atMostOneActive
         (negotiate_with_providers (negotiate_with_providers db ps e) ps2 e2).sessions) ∧
    (∀ (budget : Price) (ps : List Provider) (e : Nat),
       atMostOneActive (request_service budget ps e).sessions) :=
  ⟨fun _ _ _ h => negotiate_preserves h,
   fun _ _ _ _ _ h => negotiate_preserves (negotiate_preserves h),
   fun budget ps e =>
     foldl_request_preserves budget e ps ([], 0) (fun ident => by simp [activeCount])⟩

/-- Claim C5, witness: a double fan-out run over the same single provider
starting from the fresh fixture request keeps at most one active session
per provider. -/
theorem c5_active_session_unique_witness :
    atMostOneActive
      (negotiate_with_providers (negotiate_with_providers dbFresh oneProvider 100)
        oneProvider 200).sessions :=
  c5_active_session_unique.2.1 dbFresh oneProvider oneProvider 100 200
    (fun ident => by simp [dbFresh, activeCount])

/-- Expiring an already processed session changes nothing: the per-session
step of the scheduler is idempotent. -/
theorem expire_idem (s : NegotiationSession) :
    expire_if_active (expire_if_active s) = expire_if_active s := by
  by_cases h : s.status = .active
  · have h1 : expire_if_active s = { s with status := .expired, outcome := some .timeout } := by
      unfold expire_if_active
      rw [if_pos h]
    rw [h1]
    unfold expire_if_active
    rw [if_neg (by simp)]
  · have h1 : expire_if_active s = s := by
      unfold expire_if_active
      rw [if_neg h]
    rw [h1, h1]

/-- The scheduler does nothing on an ACCEPTED or CANCELLED request. -/
theorem check_terminal_noop {db : DB}
    (h : db.request.status = .ACCEPTED ∨ db.request.status = .CANCELLED) :
    check_negotiation_status db = db := by
  unfold check_negotiation_status
  rw [if_pos h]

/-- The scheduler is idempotent on the whole request state. -/
theorem check_idem (db : DB) :
    check_negotiation_status (check_negotiation_status db) = check_negotiation_status db := by
  by_cases h : db.request.status = .ACCEPTED ∨ db.request.status = .CANCELLED
  · rw [check_terminal_noop h]
    exact check_terminal_noop h
  · have h1 : check_negotiation_status db =
        { request := { db.request with
            offers_received := ((db.sessions.map expire_if_active).filter is_agreed_offer).length,
            status := if ((db.sessions.map expire_if_active).filter is_agreed_offer).length > 0
              then ReqStatus.OFFERS_READY else ReqStatus.EXPIRED },
          sessions := db.sessions.map expire_if_active } := by
      unfold check_negotiation_status
      rw [if_neg h]
    rw [h1]
    unfold check_negotiation_status
    rw [if_neg (by dsimp only; split <;> simp)]
    dsimp only
    rw [List.map_map]
    have hcomp : expire_if_active ∘ expire_if_active = expire_if_active := funext expire_idem
    rw [hcomp]

/-- Claim C9: running the expiry scheduler twice in a row produces the same
state — request status, session statuses and outcomes, offers_received — as
running it once, and on an already accepted or cancelled request it is a
literal no-op.  (The customer notification is re-emitted to the external
sink on a re-run; it is not part of the persisted state the claim lists.) -/
theorem c9_expiry_idempotent :
    (∀ db : DB,
       check_negotiation_status (check_negotiation_status db) = check_negotiation_status db) ∧
    (∀ db : DB, db.request.status = .ACCEPTED ∨ db.request.status = .CANCELLED →
       check_negotiation_status db = db) :=
  ⟨check_idem, fun _ h => check_terminal_noop h⟩

/-- Claim C9, witness: double run on the two-offer fixture, and the no-op on
the accepted fixture. -/
theorem c9_expiry_idempotent_witness :
    check_negotiation_status (check_negotiation_status dbOffers) =
      check_negotiation_status dbOffers ∧
    check_negotiation_status dbAccepted = dbAccepted :=
  ⟨c9_expiry_idempotent.1 dbOffers, c9_expiry_idempotent.2 dbAccepted (Or.inl rfl)⟩

end Dehack
